import Mathlib

/-!
# Rate-coupling connection models: `delay_rate_connection.h` and `diffusion_connection.h`

A shallow embedding of the two connection classes `DelayRateConnection` and
`DiffusionConnection` and of the collaborators they call.

* A member function that mutates `*this` and may throw is a function from the
  connection to an `Outcome`: the state of the object when the call ends, and the
  exception that ended it, if any.
* A C++ `double` is only stored and copied by these classes, never computed with;
  it is represented by a rational number.
* `connection.h`, the dictionary utilities, `Node` and `Event` are not among the
  sources; what the two classes use of them is modelled below and marked as such.
-/

namespace nest

/-- A C++ `double`; the connections store and copy such values verbatim. -/
abbrev double := Rat

/-- A C++ `long`. -/
abbrev long := Int

/-- Receptor port handle (`rport`). -/
abbrev rport := Int

/-- Thread index (`thread`). -/
abbrev thread := Int

/-- Delay in simulation steps (`delay`). -/
abbrev delay := Int

/-- Exceptions that the modelled calls can raise. `BadProperty` is the one thrown by
`diffusion_connection.h` itself; the others come from the collaborators. -/
inductive KernelException
  | BadProperty (msg : String)
  | TypeMismatch
  | BadDelay
  | UnknownReceptorType
  | UnsupportedEvent
  | IllegalConnection
  deriving DecidableEq, Repr

/-- Keys of the status dictionary (`names::weight`, `names::delay`, ...); `other` stands
for any further interned name. -/
inductive Name
  | weight
  | delay
  | drift_factor
  | diffusion_factor
  | size_of
  | other (id : Nat)
  deriving DecidableEq, Repr

/-- Typed values held by a status dictionary. -/
inductive Datum
  | DoubleDatum (v : double)
  | IntegerDatum (v : long)
  | StringDatum (s : String)
  deriving DecidableEq, Repr

/-- Modelled from the spec: the status sink/source (`DictionaryDatum`), "a key-value store
supporting typed `define(key, value)` and `extract(key) -> value` with a
`known(key) -> bool` query". A dictionary maps each name to the value stored under it,
if any. -/
def Dictionary := Name → Option Datum

/-- The empty dictionary. -/
def Dictionary.empty : Dictionary := fun _ => none

/-- Modelled from the spec: `d->lookup( n )`, the value stored under `n`, if any. -/
def Dictionary.lookup (d : Dictionary) (n : Name) : Option Datum := d n

/-- Modelled from the spec: `d->known( n )`. -/
def Dictionary.known (d : Dictionary) (n : Name) : Bool := (d.lookup n).isSome

/-- Modelled from the spec: storing `t` under `n`, replacing what was there. -/
def Dictionary.insert (d : Dictionary) (n : Name) (t : Datum) : Dictionary :=
  fun m => if m = n then some t else d m

/-- Removing the entry stored under `n`. -/
def Dictionary.erase (d : Dictionary) (n : Name) : Dictionary :=
  fun m => if m = n then none else d m

/-- Modelled from the spec: `def< double >( d, n, v )`, the typed `define`. -/
def def_double (d : Dictionary) (n : Name) (v : double) : Dictionary :=
  d.insert n (Datum.DoubleDatum v)

/-- Modelled from the spec: `def< long >( d, n, v )`. -/
def def_long (d : Dictionary) (n : Name) (v : long) : Dictionary :=
  d.insert n (Datum.IntegerDatum v)

/-- Modelled from the spec: typed `extract` of a `double`; a value of another type is a
`TypeMismatch`. -/
def getValue_double : Datum → Except KernelException double
  | Datum.DoubleDatum v => Except.ok v
  | _ => Except.error KernelException.TypeMismatch

/-- Modelled from the spec: typed `extract` of a `long`. -/
def getValue_long : Datum → Except KernelException long
  | Datum.IntegerDatum v => Except.ok v
  | _ => Except.error KernelException.TypeMismatch

/-- Modelled from the spec: `updateValue< double >( d, n, value )`. When `n` is not in `d`
the value is left alone and `false` is returned; otherwise the stored value is
extracted as a `double` (which may throw) and assigned. The result is the returned
flag together with the new content of `value`. -/
def updateValue_double (d : Dictionary) (n : Name) (value : double) :
    Except KernelException (Bool × double) :=
  match d.lookup n with
  | none => Except.ok (false, value)
  | some t =>
    match getValue_double t with
    | Except.error err => Except.error err
    | Except.ok v => Except.ok (true, v)

/-- Modelled from the spec: `updateValue< long >( d, n, value )`. -/
def updateValue_long (d : Dictionary) (n : Name) (value : long) :
    Except KernelException (Bool × long) :=
  match d.lookup n with
  | none => Except.ok (false, value)
  | some t =>
    match getValue_long t with
    | Except.error err => Except.error err
    | Except.ok v => Except.ok (true, v)

/-- State of an object after a member call, and the exception that ended the call
(`none` when it returned normally). -/
structure Outcome (σ : Type) where
  state : σ
  error : Option KernelException

/-- Kinds of secondary events transmitted by the two connection classes (their
`EventType` typedefs). -/
inductive EventKind
  | DelayRateNeuronEvent
  | DiffusionEvent
  deriving DecidableEq, Repr

/-- Modelled from the spec: the node capability interface. `addr` is the identity of the
node (what `&t` denotes); `sends_secondary_event` returns or throws for a probe of the
given kind; `handles_test_event` receives the kind and sender of the probe and the
requested receptor and returns the resolved port or throws. -/
structure Node where
  addr : Nat
  sends_secondary_event : EventKind → Except KernelException Unit
  handles_test_event : EventKind → Nat → rport → Except KernelException rport

/-- Modelled from the spec: the outgoing signal, with "setters for sender, receiver,
weight-like fields, drift/diffusion fields, delay, and port". -/
structure Event where
  sender : Option Nat
  receiver : Option Nat
  rport : rport
  weight : double
  delay : delay
  drift_factor : double
  diffusion_factor : double
  deriving DecidableEq, Repr

/-- Setter `e.set_weight( w )`. -/
def Event.set_weight (e : Event) (w : double) : Event := { e with weight := w }

/-- Setter `e.set_delay( d )`. -/
def Event.set_delay (e : Event) (d : nest.delay) : Event := { e with delay := d }

/-- Setter `e.set_drift_factor( a )`. -/
def Event.set_drift_factor (e : Event) (a : double) : Event := { e with drift_factor := a }

/-- Setter `e.set_diffusion_factor( b )`. -/
def Event.set_diffusion_factor (e : Event) (b : double) : Event :=
  { e with diffusion_factor := b }

/-- Setter `e.set_receiver( r )`, `r` given by its identity. -/
def Event.set_receiver (e : Event) (r : Nat) : Event := { e with receiver := some r }

/-- Setter `e.set_rport( p )`. -/
def Event.set_rport (e : Event) (p : nest.rport) : Event := { e with rport := p }

/-- Modelled from the spec: the target identifier held by the base (`target_`), a
non-owning locator of the receiving node (`none` while no target is bound) and the
receptor port. -/
structure TargetIdentifier where
  target : Option Nat
  rport : rport
  deriving DecidableEq, Repr

/-- Member `target_.set_rport( p )`. -/
def TargetIdentifier.set_rport (ti : TargetIdentifier) (p : nest.rport) : TargetIdentifier :=
  { ti with rport := p }

/-- Member `target_.set_target( &t )`. -/
def TargetIdentifier.set_target (ti : TargetIdentifier) (t : Nat) : TargetIdentifier :=
  { ti with target := some t }

/-- Modelled from the spec: the model context passed to `set_status`; it carries the
collaborator's check of a delay ("checked by the collaborator, not this core"). -/
structure ConnectorModel where
  valid_delay : delay → Bool

/-- Modelled from the spec: the shared base `Connection< targetidentifierT >` of
`connection.h`: "target reference, receptor port, delay (in discrete steps)". -/
structure ConnectionBase where
  target_ : TargetIdentifier
  delay_steps : delay
  deriving DecidableEq, Repr

/-- Modelled from the spec: accessor `get_delay_steps()`. -/
def ConnectionBase.get_delay_steps (c : ConnectionBase) : delay := c.delay_steps

/-- Modelled from the spec: accessor `get_rport()`. -/
def ConnectionBase.get_rport (c : ConnectionBase) : rport := c.target_.rport

/-- Modelled from the spec: accessor `get_target( thread )`; `none` when no target is
bound. -/
def ConnectionBase.get_target (c : ConnectionBase) (_t : thread) : Option Nat :=
  c.target_.target

/-- Modelled from the spec: `ConnectionBase::get_status`, which "writes base fields" into
the sink; the only base key the spec lists is `delay`. -/
def ConnectionBase.get_status (c : ConnectionBase) (d : Dictionary) : Dictionary :=
  def_long d Name.delay c.delay_steps

/-- Modelled from the spec: `ConnectionBase::set_status`, which "reads base fields ...
validating before mutating any state": a `delay` entry is extracted, checked by the
collaborator and only then stored. -/
def ConnectionBase.set_status (c : ConnectionBase) (d : Dictionary) (cm : ConnectorModel) :
    Outcome ConnectionBase :=
  match updateValue_long d Name.delay c.delay_steps with
  | Except.error err => ⟨c, some err⟩
  | Except.ok (false, _) => ⟨c, none⟩
  | Except.ok (true, v) =>
    if cm.valid_delay v then ⟨{ c with delay_steps := v }, none⟩
    else ⟨c, some KernelException.BadDelay⟩

/-- Modelled from the spec: `set_delay` as a Delayed Rate Connection inherits it from the
base; the delay is stored as given, its validity being "checked by the collaborator, not
this core". -/
def ConnectionBase.set_delay (c : ConnectionBase) (d : delay) : ConnectionBase :=
  { c with delay_steps := d }

/-! ## `DelayRateConnection` -/

/-- Class `DelayRateConnection`: the base and `double weight_`. -/
structure DelayRateConnection extends ConnectionBase where
  weight_ : double
  deriving DecidableEq, Repr

/-- Default constructor `DelayRateConnection()`: `ConnectionBase()`, whose result `b` is
taken as given, and `weight_( 1.0 )`. -/
def DelayRateConnection.new (b : ConnectionBase) : DelayRateConnection :=
  { toConnectionBase := b, weight_ := 1.0 }

/-- Member `DelayRateConnection::check_connection( s, t, receptor_type, double, cp )`; the
last two arguments are unnamed and unused in the source. -/
def DelayRateConnection.check_connection (c : DelayRateConnection) (s t : Node)
    (receptor_type : rport) : Outcome DelayRateConnection :=
  match s.sends_secondary_event EventKind.DelayRateNeuronEvent with
  | Except.error err => ⟨c, some err⟩
  | Except.ok _ =>
    match t.handles_test_event EventKind.DelayRateNeuronEvent s.addr receptor_type with
    | Except.error err => ⟨c, some err⟩
    | Except.ok p =>
      ⟨{ c with target_ := (c.target_.set_rport p).set_target t.addr }, none⟩

/-- Member `DelayRateConnection::send( e, t, double, cp )`. The result is the connection
after the call and the events delivered by `e()`, in order. Dereferencing
`get_target( t )` when no target is bound has no defined result (`none`). -/
def DelayRateConnection.send (c : DelayRateConnection) (e : Event) (t : thread) :
    Option (DelayRateConnection × List Event) :=
  let e1 := e.set_weight c.weight_
  let e2 := e1.set_delay c.get_delay_steps
  match c.get_target t with
  | none => none
  | some r =>
    let e3 := e2.set_receiver r
    let e4 := e3.set_rport c.get_rport
    some (c, [e4])

/-- Member `DelayRateConnection::set_weight( w )`. -/
def DelayRateConnection.set_weight (c : DelayRateConnection) (w : double) :
    DelayRateConnection :=
  { c with weight_ := w }

/-- Member `DelayRateConnection::get_status( d )`; `sizeof_this` is `sizeof( *this )`. -/
def DelayRateConnection.get_status (c : DelayRateConnection) (sizeof_this : long)
    (d : Dictionary) : Dictionary :=
  let d1 := c.toConnectionBase.get_status d
  let d2 := def_double d1 Name.weight c.weight_
  def_long d2 Name.size_of sizeof_this

/-- Member `DelayRateConnection::set_status( d, cm )`. -/
def DelayRateConnection.set_status (c : DelayRateConnection) (d : Dictionary)
    (cm : ConnectorModel) : Outcome DelayRateConnection :=
  match c.toConnectionBase.set_status d cm with
  | ⟨b, some err⟩ => ⟨{ c with toConnectionBase := b }, some err⟩
  | ⟨b, none⟩ =>
    match updateValue_double d Name.weight c.weight_ with
    | Except.error err => ⟨{ c with toConnectionBase := b }, some err⟩
    | Except.ok (_, w) => ⟨{ c with toConnectionBase := b, weight_ := w }, none⟩

/-! ## `DiffusionConnection` -/

/-- Class `DiffusionConnection`: the base and `weight_`, `drift_factor_`,
`diffusion_factor_`. -/
structure DiffusionConnection extends ConnectionBase where
  weight_ : double
  drift_factor_ : double
  diffusion_factor_ : double
  deriving DecidableEq, Repr

/-- Default constructor `DiffusionConnection()`: `ConnectionBase()`, whose result `b` is
taken as given, and the three members initialised to `1.0`. -/
def DiffusionConnection.new (b : ConnectionBase) : DiffusionConnection :=
  { toConnectionBase := b, weight_ := 1.0, drift_factor_ := 1.0, diffusion_factor_ := 1.0 }

/-- Member `DiffusionConnection::check_connection( s, t, receptor_type, double, cp )`. -/
def DiffusionConnection.check_connection (c : DiffusionConnection) (s t : Node)
    (receptor_type : rport) : Outcome DiffusionConnection :=
  match s.sends_secondary_event EventKind.DiffusionEvent with
  | Except.error err => ⟨c, some err⟩
  | Except.ok _ =>
    match t.handles_test_event EventKind.DiffusionEvent s.addr receptor_type with
    | Except.error err => ⟨c, some err⟩
    | Except.ok p =>
      ⟨{ c with target_ := (c.target_.set_rport p).set_target t.addr }, none⟩

/-- Member `DiffusionConnection::send( e, t, double, cp )`, with the same conventions as
`DelayRateConnection.send`. -/
def DiffusionConnection.send (c : DiffusionConnection) (e : Event) (t : thread) :
    Option (DiffusionConnection × List Event) :=
  let e1 := e.set_weight c.weight_
  let e2 := e1.set_drift_factor c.drift_factor_
  let e3 := e2.set_diffusion_factor c.diffusion_factor_
  match c.get_target t with
  | none => none
  | some r =>
    let e4 := e3.set_receiver r
    let e5 := e4.set_rport c.get_rport
    some (c, [e5])

/-- Message of the `BadProperty` thrown when a weight is given to a
`DiffusionConnection`. -/
def DiffusionConnection.msg_weight : String :=
  "Please uses the parameters \"drift_factor\" and \"diffusion_factor\" to specifiy the weights"

/-- Message of the `BadProperty` thrown when a delay is given to a
`DiffusionConnection`. -/
def DiffusionConnection.msg_delay : String := "diffusion_connection has no delay."

/-- Member `DiffusionConnection::set_weight( w )`: always throws. -/
def DiffusionConnection.set_weight (c : DiffusionConnection) (_w : double) :
    Outcome DiffusionConnection :=
  ⟨c, some (KernelException.BadProperty DiffusionConnection.msg_weight)⟩

/-- Member `DiffusionConnection::set_delay( double )`: always throws. -/
def DiffusionConnection.set_delay (c : DiffusionConnection) (_v : double) :
    Outcome DiffusionConnection :=
  ⟨c, some (KernelException.BadProperty DiffusionConnection.msg_delay)⟩

/-- Member `DiffusionConnection::get_status( d )`; `sizeof_this` is `sizeof( *this )`. -/
def DiffusionConnection.get_status (c : DiffusionConnection) (sizeof_this : long)
    (d : Dictionary) : Dictionary :=
  let d1 := c.toConnectionBase.get_status d
  let d2 := def_double d1 Name.weight c.weight_
  let d3 := def_double d2 Name.drift_factor c.drift_factor_
  let d4 := def_double d3 Name.diffusion_factor c.diffusion_factor_
  def_long d4 Name.size_of sizeof_this

/-- Member `DiffusionConnection::set_status( d, cm )`. -/
def DiffusionConnection.set_status (c : DiffusionConnection) (d : Dictionary)
    (cm : ConnectorModel) : Outcome DiffusionConnection :=
  if d.known Name.delay then
    ⟨c, some (KernelException.BadProperty DiffusionConnection.msg_delay)⟩
  else if d.known Name.weight then
    ⟨c, some (KernelException.BadProperty DiffusionConnection.msg_weight)⟩
  else
    match c.toConnectionBase.set_status d cm with
    | ⟨b, some err⟩ => ⟨{ c with toConnectionBase := b }, some err⟩
    | ⟨b, none⟩ =>
      match updateValue_double d Name.drift_factor c.drift_factor_ with
      | Except.error err => ⟨{ c with toConnectionBase := b }, some err⟩
      | Except.ok (_, a) =>
        match updateValue_double d Name.diffusion_factor c.diffusion_factor_ with
        | Except.error err =>
          ⟨{ c with toConnectionBase := b, drift_factor_ := a }, some err⟩
        | Except.ok (_, f) =>
          ⟨{ c with toConnectionBase := b, drift_factor_ := a, diffusion_factor_ := f }, none⟩

/-! ## Sequences of calls on a `DiffusionConnection` -/

/-- One public call on a `DiffusionConnection`, with its arguments. -/
inductive DiffusionCall
  | check_connection (s t : Node) (receptor_type : rport)
  | set_status (d : Dictionary) (cm : ConnectorModel)
  | set_weight (w : double)
  | set_delay (v : double)
  | get_status (sizeof_this : long) (d : Dictionary)
  | send (e : Event) (t : thread)

/-- State of the connection after one call, whether the call returned or threw; `none`
only where the call has no defined result (`send` without a bound target). -/
def DiffusionConnection.call (c : DiffusionConnection) :
    DiffusionCall → Option DiffusionConnection
  | DiffusionCall.check_connection s t receptor_type =>
    some (c.check_connection s t receptor_type).state
  | DiffusionCall.set_status d cm => some (c.set_status d cm).state
  | DiffusionCall.set_weight w => some (c.set_weight w).state
  | DiffusionCall.set_delay v => some (c.set_delay v).state
  | DiffusionCall.get_status _ _ => some c
  | DiffusionCall.send e t => (c.send e t).map Prod.fst

/-- State of the connection after a finite sequence of calls. -/
def DiffusionConnection.calls (c : DiffusionConnection) :
    List DiffusionCall → Option DiffusionConnection
  | [] => some c
  | op :: ops =>
    match c.call op with
    | none => none
    | some c1 => c1.calls ops

/-- Whether a call on a `DiffusionConnection` is the handshake. -/
def DiffusionCall.is_check_connection : DiffusionCall → Bool
  | DiffusionCall.check_connection _ _ _ => true
  | _ => false

/-! ## Calls on a `DelayRateConnection` -/

/-- One public call on a `DelayRateConnection`, with its arguments; `set_delay` is the
member inherited from the base. -/
inductive DelayRateCall
  | check_connection (s t : Node) (receptor_type : rport)
  | set_status (d : Dictionary) (cm : ConnectorModel)
  | set_weight (w : double)
  | set_delay (d : delay)
  | get_status (sizeof_this : long) (d : Dictionary)
  | send (e : Event) (t : thread)

/-- Whether a call on a `DelayRateConnection` is the handshake. -/
def DelayRateCall.is_check_connection : DelayRateCall → Bool
  | DelayRateCall.check_connection _ _ _ => true
  | _ => false

/-- State of the connection after one call, whether the call returned or threw; `none`
only where the call has no defined result (`send` without a bound target). -/
def DelayRateConnection.call (c : DelayRateConnection) :
    DelayRateCall → Option DelayRateConnection
  | DelayRateCall.check_connection s t receptor_type =>
    some (c.check_connection s t receptor_type).state
  | DelayRateCall.set_status d cm => some (c.set_status d cm).state
  | DelayRateCall.set_weight w => some (c.set_weight w)
  | DelayRateCall.set_delay d => some { c with toConnectionBase := c.toConnectionBase.set_delay d }
  | DelayRateCall.get_status _ _ => some c
  | DelayRateCall.send e t => (c.send e t).map Prod.fst

/-! ## Concrete objects used to exercise the definitions -/

/-- A node at address 7 that emits and accepts every kind of secondary event and resolves
receptor `r` to port `r + 1`. -/
def example_node : Node :=
  { addr := 7
    sends_secondary_event := fun _ => Except.ok ()
    handles_test_event := fun _ _ r => Except.ok (r + 1) }

/-- A node at address 8 that emits no secondary event and knows no receptor. -/
def example_deaf_node : Node :=
  { addr := 8
    sends_secondary_event := fun _ => Except.error KernelException.UnsupportedEvent
    handles_test_event := fun _ _ _ => Except.error KernelException.UnknownReceptorType }

/-- A node at address 5 that emits and accepts delayed rate events only and resolves
receptor `r` to port `r + 1`. -/
def example_rate_node : Node :=
  { addr := 5
    sends_secondary_event := fun k =>
      match k with
      | EventKind.DelayRateNeuronEvent => Except.ok ()
      | EventKind.DiffusionEvent => Except.error KernelException.UnsupportedEvent
    handles_test_event := fun k _ r =>
      match k with
      | EventKind.DelayRateNeuronEvent => Except.ok (r + 1)
      | EventKind.DiffusionEvent => Except.error KernelException.UnknownReceptorType }

/-- A node at address 6 that emits and accepts diffusion events only and resolves
receptor `r` to port `r + 1`. -/
def example_diffusion_node : Node :=
  { addr := 6
    sends_secondary_event := fun k =>
      match k with
      | EventKind.DiffusionEvent => Except.ok ()
      | EventKind.DelayRateNeuronEvent => Except.error KernelException.UnsupportedEvent
    handles_test_event := fun k _ r =>
      match k with
      | EventKind.DiffusionEvent => Except.ok (r + 1)
      | EventKind.DelayRateNeuronEvent => Except.error KernelException.UnknownReceptorType }

/-- A base with no target bound, port 0 and a delay of one step. -/
def example_base : ConnectionBase :=
  { target_ := { target := none, rport := 0 }, delay_steps := 1 }

/-- A model context that accepts delays of at least one step. -/
def example_cm : ConnectorModel := { valid_delay := fun v => decide (1 ≤ v) }

/-- An outgoing signal with weight 5 and delay 9. -/
def example_event : Event :=
  { sender := some 3, receiver := none, rport := 0, weight := 5, delay := 9,
    drift_factor := 0, diffusion_factor := 0 }

/-- The dictionary `{ weight: w, delay: dl }`. -/
def weight_delay_dict (w : double) (dl : delay) : Dictionary :=
  def_long (def_double Dictionary.empty Name.weight w) Name.delay dl

/-- The dictionary `{ drift_factor: a, diffusion_factor: b }`. -/
def drift_diffusion_dict (a b : double) : Dictionary :=
  def_double (def_double Dictionary.empty Name.drift_factor a) Name.diffusion_factor b

/-- The dictionary `{ drift_factor: 2/5, diffusion_factor: 1 }` whose second entry is an
integer, not a `double`. -/
def example_mistyped_diffusion : Dictionary :=
  def_long (def_double Dictionary.empty Name.drift_factor (2 / 5)) Name.diffusion_factor 1

/-- The dictionary `{ delay: 3, weight: 2 }` whose `weight` entry is an integer, not a
`double`. -/
def example_mistyped_weight : Dictionary :=
  def_long (def_long Dictionary.empty Name.delay 3) Name.weight 2

/-- The dictionary `{ weight: w }`. -/
def weight_dict (w : double) : Dictionary :=
  def_double Dictionary.empty Name.weight w

/-- The dictionary `{ drift_factor: 1 }` whose entry is an integer, not a `double`. -/
def example_mistyped_drift : Dictionary :=
  def_long Dictionary.empty Name.drift_factor 1

/-- The sequence of calls used to exercise C10: a handshake, an accepted `set_status`,
the two throwing setters, a rejected `set_status` that offers a weight, a `get_status` and
a `send`. -/
def example_calls : List DiffusionCall :=
  [ DiffusionCall.check_connection example_node example_node 3,
    DiffusionCall.set_status (drift_diffusion_dict 2 3) example_cm,
    DiffusionCall.set_weight 5,
    DiffusionCall.set_delay 2,
    DiffusionCall.set_status (weight_delay_dict 5 2) example_cm,
    DiffusionCall.get_status 48 Dictionary.empty,
    DiffusionCall.send example_event 0 ]

/-! ## Dictionary lemmas -/

@[simp] theorem Dictionary.lookup_empty (n : Name) : Dictionary.empty.lookup n = none := rfl

@[simp] theorem Dictionary.lookup_insert (d : Dictionary) (n m : Name) (t : Datum) :
    (d.insert n t).lookup m = if m = n then some t else d.lookup m := rfl

@[simp] theorem Dictionary.lookup_erase (d : Dictionary) (n m : Name) :
    (d.erase n).lookup m = if m = n then none else d.lookup m := rfl

@[simp] theorem Dictionary.known_eq (d : Dictionary) (n : Name) :
    d.known n = (d.lookup n).isSome := rfl

@[simp] theorem lookup_def_double (d : Dictionary) (n m : Name) (v : double) :
    (def_double d n v).lookup m = if m = n then some (Datum.DoubleDatum v) else d.lookup m :=
  rfl

@[simp] theorem lookup_def_long (d : Dictionary) (n m : Name) (v : long) :
    (def_long d n v).lookup m = if m = n then some (Datum.IntegerDatum v) else d.lookup m :=
  rfl

/-- On a dictionary without a `delay` entry the base `set_status` succeeds and changes
nothing. -/
theorem ConnectionBase.set_status_of_no_delay (c : ConnectionBase) (d : Dictionary)
    (cm : ConnectorModel) (h : d.lookup Name.delay = none) :
    c.set_status d cm = ⟨c, none⟩ := by
  simp [ConnectionBase.set_status, updateValue_long, h]

/-- A failing base `set_status` leaves the base unchanged. -/
theorem ConnectionBase.set_status_state_of_error (c : ConnectionBase) (d : Dictionary)
    (cm : ConnectorModel) (h : (c.set_status d cm).error ≠ none) :
    (c.set_status d cm).state = c := by
  unfold ConnectionBase.set_status at h ⊢
  cases hu : updateValue_long d Name.delay c.delay_steps with
  | error err => simp
  | ok r =>
    obtain ⟨flag, v⟩ := r
    cases flag with
    | false => simp
    | true =>
      by_cases hv : cm.valid_delay v = true
      · simp [hu, hv] at h
      · simp [hv]

/-- The base `set_status` never touches the target identifier. -/
theorem ConnectionBase.set_status_target (c : ConnectionBase) (d : Dictionary)
    (cm : ConnectorModel) : (c.set_status d cm).state.target_ = c.target_ := by
  unfold ConnectionBase.set_status
  cases hu : updateValue_long d Name.delay c.delay_steps with
  | error err => simp
  | ok r =>
    obtain ⟨flag, v⟩ := r
    cases flag with
    | false => simp
    | true =>
      by_cases hv : cm.valid_delay v = true
      · simp [hv]
      · simp [hv]

/-! ## Claims -/

/-- C1: for every Diffusive Connection `c` and every dictionary `d` that contains a
`weight` key or a `delay` key, whatever else it contains, `set_status` fails with
`BadProperty` and leaves `c` (hence `drift_factor`, `diffusion_factor`, `weight`, delay,
port and target) exactly as it was. -/
theorem DiffusionConnection.set_status_weight_or_delay_fails (c : DiffusionConnection)
    (d : Dictionary) (cm : ConnectorModel)
    (h : d.known Name.weight = true ∨ d.known Name.delay = true) :
    (∃ msg, (c.set_status d cm).error = some (KernelException.BadProperty msg)) ∧
      (c.set_status d cm).state = c := by
  unfold DiffusionConnection.set_status
  by_cases hd : d.known Name.delay = true
  · rw [if_pos hd]
    exact ⟨⟨_, rfl⟩, rfl⟩
  · have hw : d.known Name.weight = true := h.resolve_right hd
    rw [if_neg hd, if_pos hw]
    exact ⟨⟨_, rfl⟩, rfl⟩

/-- C1 at a dictionary holding `weight` next to a `drift_factor` and a `diffusion_factor`
entry. -/
theorem DiffusionConnection.set_status_weight_or_delay_fails_witness :
    ((def_double (def_double (def_double Dictionary.empty Name.drift_factor 3)
          Name.diffusion_factor 4) Name.weight 2).known Name.weight = true ∨
      (def_double (def_double (def_double Dictionary.empty Name.drift_factor 3)
          Name.diffusion_factor 4) Name.weight 2).known Name.delay = true) ∧
    ((∃ msg, ((DiffusionConnection.new example_base).set_status
          (def_double (def_double (def_double Dictionary.empty Name.drift_factor 3)
            Name.diffusion_factor 4) Name.weight 2) example_cm).error
        = some (KernelException.BadProperty msg)) ∧
      ((DiffusionConnection.new example_base).set_status
          (def_double (def_double (def_double Dictionary.empty Name.drift_factor 3)
            Name.diffusion_factor 4) Name.weight 2) example_cm).state
        = DiffusionConnection.new example_base) :=
  ⟨Or.inl rfl,
    DiffusionConnection.set_status_weight_or_delay_fails _ _ _ (Or.inl rfl)⟩

/-- C2: for every Diffusive Connection `c` and every value `v`, `set_weight( v )` and
`set_delay( v )` both fail with `BadProperty`; neither ever succeeds and both leave `c`
unchanged. -/
theorem DiffusionConnection.set_weight_set_delay_fail (c : DiffusionConnection)
    (v : double) :
    (c.set_weight v).error
        = some (KernelException.BadProperty DiffusionConnection.msg_weight) ∧
      (c.set_weight v).state = c ∧
      (c.set_delay v).error
        = some (KernelException.BadProperty DiffusionConnection.msg_delay) ∧
      (c.set_delay v).state = c ∧
      (c.set_weight v).error ≠ none ∧ (c.set_delay v).error ≠ none := by
  refine ⟨rfl, rfl, rfl, rfl, ?_, ?_⟩ <;> simp [DiffusionConnection.set_weight,
    DiffusionConnection.set_delay]

/-- C3: for every Delayed Rate Connection `c` whose delay the collaborator accepts,
writing `get_status` into an empty dictionary and passing that dictionary to
`set_status` succeeds and gives back `c` itself (same weight, delay steps, port and
target). -/
theorem DelayRateConnection.status_roundtrip (c : DelayRateConnection)
    (sizeof_this : long) (cm : ConnectorModel)
    (h : cm.valid_delay c.get_delay_steps = true) :
    (c.set_status (c.get_status sizeof_this Dictionary.empty) cm).error = none ∧
      (c.set_status (c.get_status sizeof_this Dictionary.empty) cm).state = c := by
  have hd : cm.valid_delay c.delay_steps = true := h
  simp [DelayRateConnection.set_status, DelayRateConnection.get_status,
    ConnectionBase.set_status, ConnectionBase.get_status, updateValue_long,
    updateValue_double, getValue_long, getValue_double, hd]

/-- C3 at a connection with weight 5/2 and a delay of three steps, after a handshake. -/
theorem DelayRateConnection.status_roundtrip_witness :
    example_cm.valid_delay
        (DelayRateConnection.mk ⟨⟨some 7, 4⟩, 3⟩ (5 / 2)).get_delay_steps = true ∧
    (((DelayRateConnection.mk ⟨⟨some 7, 4⟩, 3⟩ (5 / 2)).set_status
        ((DelayRateConnection.mk ⟨⟨some 7, 4⟩, 3⟩ (5 / 2)).get_status 32
          Dictionary.empty) example_cm).error = none ∧
      ((DelayRateConnection.mk ⟨⟨some 7, 4⟩, 3⟩ (5 / 2)).set_status
        ((DelayRateConnection.mk ⟨⟨some 7, 4⟩, 3⟩ (5 / 2)).get_status 32
          Dictionary.empty) example_cm).state
        = DelayRateConnection.mk ⟨⟨some 7, 4⟩, 3⟩ (5 / 2)) :=
  ⟨by decide, DelayRateConnection.status_roundtrip _ 32 example_cm (by decide)⟩

/-- C4: starting from a default-constructed Delayed Rate Connection whose handshake with
target `t` returned port `p`, `set_status` with `{ weight: w, delay: dl }` (a delay the
collaborator accepts) succeeds, and a single `send` then forwards the signal exactly once,
with weight `w`, delay `dl`, receiver `t` and port `p`. More generally, in any state
`c` with a bound target, `send` forwards the signal exactly once, stamped with the
current weight, `get_delay_steps()`, the resolved target and `get_rport()`. -/
theorem DelayRateConnection.delay_rate_end_to_end (b : ConnectionBase) (s t : Node)
    (receptor_type p : rport) (w : double) (dl : delay) (cm : ConnectorModel)
    (e : Event) (th : thread) (c : DelayRateConnection) (r : Nat)
    (hs : s.sends_secondary_event EventKind.DelayRateNeuronEvent = Except.ok ())
    (ht : t.handles_test_event EventKind.DelayRateNeuronEvent s.addr receptor_type
      = Except.ok p)
    (hd : cm.valid_delay dl = true)
    (hr : c.get_target th = some r) :
    (((DelayRateConnection.new b).check_connection s t receptor_type).error = none ∧
      ((((DelayRateConnection.new b).check_connection s t receptor_type).state.set_status
          (weight_delay_dict w dl) cm).error = none) ∧
      ((((DelayRateConnection.new b).check_connection s t receptor_type).state.set_status
          (weight_delay_dict w dl) cm).state.send e th
        = some ((((DelayRateConnection.new b).check_connection s t
              receptor_type).state.set_status (weight_delay_dict w dl) cm).state,
            [{ e with weight := w, delay := dl, receiver := some t.addr, rport := p }]))) ∧
    c.send e th
      = some (c, [{ e with weight := c.weight_, delay := c.get_delay_steps,
                           receiver := some r, rport := c.get_rport }]) := by
  refine ⟨?_, ?_⟩
  · simp [DelayRateConnection.check_connection, DelayRateConnection.set_status,
      DelayRateConnection.send, DelayRateConnection.new, weight_delay_dict,
      ConnectionBase.set_status, ConnectionBase.get_target, ConnectionBase.get_rport,
      ConnectionBase.get_delay_steps, updateValue_long, updateValue_double, getValue_long,
      getValue_double, TargetIdentifier.set_rport, TargetIdentifier.set_target,
      Event.set_weight, Event.set_delay, Event.set_receiver, Event.set_rport, hs, ht, hd]
  · simp [DelayRateConnection.send, hr, Event.set_weight, Event.set_delay,
      Event.set_receiver, Event.set_rport]

/-- C4 at weight 5/2 and a delay of three steps (the end-to-end scenario of the spec),
and at a connection bound to node 7 on port 4. -/
theorem DelayRateConnection.delay_rate_end_to_end_witness :
    (((DelayRateConnection.new example_base).check_connection example_node example_node
          3).error = none ∧
      ((((DelayRateConnection.new example_base).check_connection example_node example_node
          3).state.set_status (weight_delay_dict (5 / 2) 3) example_cm).error = none) ∧
      ((((DelayRateConnection.new example_base).check_connection example_node example_node
          3).state.set_status (weight_delay_dict (5 / 2) 3) example_cm).state.send
          example_event 0
        = some ((((DelayRateConnection.new example_base).check_connection example_node
              example_node 3).state.set_status (weight_delay_dict (5 / 2) 3)
              example_cm).state,
            [{ example_event with weight := 5 / 2, delay := 3,
                                  receiver := some example_node.addr, rport := 4 }]))) ∧
    (DelayRateConnection.mk ⟨⟨some 7, 4⟩, 3⟩ 2).send example_event 0
      = some (DelayRateConnection.mk ⟨⟨some 7, 4⟩, 3⟩ 2,
          [{ example_event with
              weight := (DelayRateConnection.mk ⟨⟨some 7, 4⟩, 3⟩ 2).weight_,
              delay := (DelayRateConnection.mk ⟨⟨some 7, 4⟩, 3⟩ 2).get_delay_steps,
              receiver := some 7,
              rport := (DelayRateConnection.mk ⟨⟨some 7, 4⟩, 3⟩ 2).get_rport }]) :=
  DelayRateConnection.delay_rate_end_to_end example_base example_node example_node 3 4
    (5 / 2) 3 example_cm example_event 0 (DelayRateConnection.mk ⟨⟨some 7, 4⟩, 3⟩ 2) 7
    rfl rfl (by decide) rfl

/-- C5: starting from a default-constructed Diffusive Connection whose handshake with
target `t` returned port `p`, `set_status` with `{ drift_factor: a, diffusion_factor: b }`
succeeds, and a single `send` then forwards the signal exactly once, with drift factor
`a`, diffusion factor `b`, receiver `t` and port `p`. -/
theorem DiffusionConnection.diffusion_end_to_end (bs : ConnectionBase) (s t : Node)
    (receptor_type p : rport) (a b : double) (cm : ConnectorModel) (e : Event)
    (th : thread)
    (hs : s.sends_secondary_event EventKind.DiffusionEvent = Except.ok ())
    (ht : t.handles_test_event EventKind.DiffusionEvent s.addr receptor_type
      = Except.ok p) :
    ((DiffusionConnection.new bs).check_connection s t receptor_type).error = none ∧
      ((((DiffusionConnection.new bs).check_connection s t receptor_type).state.set_status
          (drift_diffusion_dict a b) cm).error = none) ∧
      ∃ e1, (((DiffusionConnection.new bs).check_connection s t
              receptor_type).state.set_status (drift_diffusion_dict a b) cm).state.send e th
          = some ((((DiffusionConnection.new bs).check_connection s t
                receptor_type).state.set_status (drift_diffusion_dict a b) cm).state, [e1]) ∧
        e1.drift_factor = a ∧ e1.diffusion_factor = b ∧
        e1.receiver = some t.addr ∧ e1.rport = p := by
  simp [DiffusionConnection.check_connection, DiffusionConnection.set_status,
    DiffusionConnection.send, DiffusionConnection.new, drift_diffusion_dict,
    ConnectionBase.set_status, ConnectionBase.get_target, ConnectionBase.get_rport,
    updateValue_long, updateValue_double, getValue_double,
    TargetIdentifier.set_rport, TargetIdentifier.set_target,
    Event.set_weight, Event.set_drift_factor, Event.set_diffusion_factor,
    Event.set_receiver, Event.set_rport, hs, ht]

/-- C5 at drift factor 2/5 and diffusion factor 1/10 (the end-to-end scenario of the
spec). -/
theorem DiffusionConnection.diffusion_end_to_end_witness :
    ((DiffusionConnection.new example_base).check_connection example_node example_node
        3).error = none ∧
      ((((DiffusionConnection.new example_base).check_connection example_node example_node
          3).state.set_status (drift_diffusion_dict (2 / 5) (1 / 10)) example_cm).error
        = none) ∧
      ∃ e1, (((DiffusionConnection.new example_base).check_connection example_node
              example_node 3).state.set_status (drift_diffusion_dict (2 / 5) (1 / 10))
              example_cm).state.send example_event 0
          = some ((((DiffusionConnection.new example_base).check_connection example_node
                example_node 3).state.set_status (drift_diffusion_dict (2 / 5) (1 / 10))
                example_cm).state, [e1]) ∧
        e1.drift_factor = 2 / 5 ∧ e1.diffusion_factor = 1 / 10 ∧
        e1.receiver = some example_node.addr ∧ e1.rport = 4 :=
  DiffusionConnection.diffusion_end_to_end example_base example_node example_node 3 4
    (2 / 5) (1 / 10) example_cm example_event 0 rfl rfl

/-- C6, as stated, fails: a default-constructed Diffusive Connection bound by a handshake
forwards a signal that came in with weight 5 with weight 1.0. -/
theorem DiffusionConnection.send_weight_counterexample :
    ∃ e1, ((DiffusionConnection.new example_base).check_connection example_node
          example_node 3).state.send example_event 0
        = some (((DiffusionConnection.new example_base).check_connection example_node
            example_node 3).state, [e1]) ∧
      e1.weight = 1.0 ∧ example_event.weight = 5 ∧ e1.weight ≠ example_event.weight := by
  refine ⟨{ example_event with weight := 1.0, drift_factor := 1.0, diffusion_factor := 1.0,
                               receiver := some 7, rport := 4 }, rfl, rfl, rfl, ?_⟩
  simp only [example_event]
  norm_num

/-- C6, amended: `send` of a Diffusive Connection stamps no delay on the outgoing signal.
For every connection `c` with a bound target and every signal `e`, exactly one signal is
forwarded; its delay (and sender) are those of `e`, while its weight is the stored weight
of `c`, its drift and diffusion factors are those of `c`, and its receiver and port are
the resolved target and `get_rport()`. -/
theorem DiffusionConnection.send_stamps (c : DiffusionConnection) (e : Event)
    (th : thread) (r : Nat) (hr : c.get_target th = some r) :
    ∃ e1, c.send e th = some (c, [e1]) ∧
      e1.delay = e.delay ∧ e1.sender = e.sender ∧
      e1.weight = c.weight_ ∧
      e1.drift_factor = c.drift_factor_ ∧ e1.diffusion_factor = c.diffusion_factor_ ∧
      e1.receiver = some r ∧ e1.rport = c.get_rport := by
  simp [DiffusionConnection.send, hr, Event.set_weight, Event.set_drift_factor,
    Event.set_diffusion_factor, Event.set_receiver, Event.set_rport]

/-- C6, amended, at a connection bound to node 7 on port 4 and a signal with delay 9. -/
theorem DiffusionConnection.send_stamps_witness :
    ∃ e1, (DiffusionConnection.mk ⟨⟨some 7, 4⟩, 1⟩ 1 2 3).send example_event 0
        = some (DiffusionConnection.mk ⟨⟨some 7, 4⟩, 1⟩ 1 2 3, [e1]) ∧
      e1.delay = example_event.delay ∧ e1.sender = example_event.sender ∧
      e1.weight = (DiffusionConnection.mk ⟨⟨some 7, 4⟩, 1⟩ 1 2 3).weight_ ∧
      e1.drift_factor = (DiffusionConnection.mk ⟨⟨some 7, 4⟩, 1⟩ 1 2 3).drift_factor_ ∧
      e1.diffusion_factor
        = (DiffusionConnection.mk ⟨⟨some 7, 4⟩, 1⟩ 1 2 3).diffusion_factor_ ∧
      e1.receiver = some 7 ∧
      e1.rport = (DiffusionConnection.mk ⟨⟨some 7, 4⟩, 1⟩ 1 2 3).get_rport :=
  DiffusionConnection.send_stamps (DiffusionConnection.mk ⟨⟨some 7, 4⟩, 1⟩ 1 2 3)
    example_event 0 7 rfl

/-- C7: for both variants, if the source rejects the probe, `check_connection` fails with
the error of the source whatever the target is (the target is not consulted); if the
source accepts and the target rejects the probe for the requested receptor,
`check_connection` fails with the error of the target. In both cases the connection,
port and target included, is left unchanged. -/
theorem check_connection_rejected (cr : DelayRateConnection) (cf : DiffusionConnection)
    (s t : Node) (receptor_type : rport) (err : KernelException) :
    (s.sends_secondary_event EventKind.DelayRateNeuronEvent = Except.error err →
        ∀ t1 : Node, cr.check_connection s t1 receptor_type = ⟨cr, some err⟩) ∧
    (s.sends_secondary_event EventKind.DelayRateNeuronEvent = Except.ok () →
        t.handles_test_event EventKind.DelayRateNeuronEvent s.addr receptor_type
          = Except.error err →
        cr.check_connection s t receptor_type = ⟨cr, some err⟩) ∧
    (s.sends_secondary_event EventKind.DiffusionEvent = Except.error err →
        ∀ t1 : Node, cf.check_connection s t1 receptor_type = ⟨cf, some err⟩) ∧
    (s.sends_secondary_event EventKind.DiffusionEvent = Except.ok () →
        t.handles_test_event EventKind.DiffusionEvent s.addr receptor_type
          = Except.error err →
        cf.check_connection s t receptor_type = ⟨cf, some err⟩) := by
  refine ⟨?_, ?_, ?_, ?_⟩
  · intro hs t1
    simp [DelayRateConnection.check_connection, hs]
  · intro hs ht
    simp [DelayRateConnection.check_connection, hs, ht]
  · intro hs t1
    simp [DiffusionConnection.check_connection, hs]
  · intro hs ht
    simp [DiffusionConnection.check_connection, hs, ht]

/-- C7 with a source that emits nothing (`UnsupportedEvent`) and with a target that knows
no receptor (`UnknownReceptorType`). -/
theorem check_connection_rejected_witness :
    (DelayRateConnection.new example_base).check_connection example_deaf_node example_node 0
        = ⟨DelayRateConnection.new example_base, some KernelException.UnsupportedEvent⟩ ∧
    (DelayRateConnection.new example_base).check_connection example_node example_deaf_node 0
        = ⟨DelayRateConnection.new example_base,
            some KernelException.UnknownReceptorType⟩ ∧
    (DiffusionConnection.new example_base).check_connection example_deaf_node example_node 0
        = ⟨DiffusionConnection.new example_base, some KernelException.UnsupportedEvent⟩ ∧
    (DiffusionConnection.new example_base).check_connection example_node example_deaf_node 0
        = ⟨DiffusionConnection.new example_base,
            some KernelException.UnknownReceptorType⟩ :=
  ⟨(check_connection_rejected (DelayRateConnection.new example_base)
      (DiffusionConnection.new example_base) example_deaf_node example_node 0
      KernelException.UnsupportedEvent).1 rfl example_node,
   (check_connection_rejected (DelayRateConnection.new example_base)
      (DiffusionConnection.new example_base) example_node example_deaf_node 0
      KernelException.UnknownReceptorType).2.1 rfl rfl,
   (check_connection_rejected (DelayRateConnection.new example_base)
      (DiffusionConnection.new example_base) example_deaf_node example_node 0
      KernelException.UnsupportedEvent).2.2.1 rfl example_node,
   (check_connection_rejected (DelayRateConnection.new example_base)
      (DiffusionConnection.new example_base) example_node example_deaf_node 0
      KernelException.UnknownReceptorType).2.2.2 rfl rfl⟩

/-- C8, as stated, fails. A Diffusive Connection given a `double` under `drift_factor` and
an integer under `diffusion_factor` fails with `TypeMismatch` after `drift_factor_` has
been overwritten; a Delayed Rate Connection given a valid `delay` and an integer under
`weight` fails with `TypeMismatch` after the delay has been overwritten. -/
theorem set_status_all_or_nothing_counterexample :
    ((DiffusionConnection.new example_base).set_status example_mistyped_diffusion
        example_cm).error = some KernelException.TypeMismatch ∧
    ((DiffusionConnection.new example_base).set_status example_mistyped_diffusion
        example_cm).state.drift_factor_ = 2 / 5 ∧
    (DiffusionConnection.new example_base).drift_factor_ = 1.0 ∧
    ((DiffusionConnection.new example_base).set_status example_mistyped_diffusion
        example_cm).state ≠ DiffusionConnection.new example_base ∧
    ((DelayRateConnection.new example_base).set_status example_mistyped_weight
        example_cm).error = some KernelException.TypeMismatch ∧
    ((DelayRateConnection.new example_base).set_status example_mistyped_weight
        example_cm).state.delay_steps = 3 ∧
    (DelayRateConnection.new example_base).delay_steps = 1 ∧
    ((DelayRateConnection.new example_base).set_status example_mistyped_weight
        example_cm).state ≠ DelayRateConnection.new example_base := by
  refine ⟨rfl, rfl, rfl, ?_, rfl, rfl, rfl, ?_⟩
  · intro h
    have h1 := congrArg DiffusionConnection.drift_factor_ h
    have h2 : ((2 : double) / 5) = 1.0 := h1
    norm_num at h2
  · intro h
    have h1 := congrArg (fun c : DelayRateConnection => c.delay_steps) h
    have h2 : (3 : delay) = 1 := h1
    norm_num at h2

/-- A failing `DelayRateConnection::set_status` leaves the connection unchanged, or else
the dictionary holds a delay that the base has stored and a `weight` entry that is not a
`double`. -/
theorem DelayRateConnection.delay_rate_failure_cases (c : DelayRateConnection)
    (d : Dictionary) (cm : ConnectorModel) (herr : (c.set_status d cm).error ≠ none) :
    (c.set_status d cm).state = c ∨
    ∃ v t, d.lookup Name.delay = some (Datum.IntegerDatum v) ∧ cm.valid_delay v = true ∧
      d.lookup Name.weight = some t ∧ (∀ x, t ≠ Datum.DoubleDatum x) ∧
      (c.set_status d cm).error = some KernelException.TypeMismatch ∧
      (c.set_status d cm).state = { c with delay_steps := v } := by
  cases hl : d.lookup Name.delay with
  | none =>
    left
    have hb := ConnectionBase.set_status_of_no_delay c.toConnectionBase d cm hl
    unfold DelayRateConnection.set_status at herr ⊢
    rw [hb] at herr ⊢
    cases hu : updateValue_double d Name.weight c.weight_ with
    | error err => rfl
    | ok r => simp [hu] at herr
  | some td =>
    cases td with
    | DoubleDatum x =>
      left
      simp [DelayRateConnection.set_status, ConnectionBase.set_status, updateValue_long,
        getValue_long, hl]
    | StringDatum x =>
      left
      simp [DelayRateConnection.set_status, ConnectionBase.set_status, updateValue_long,
        getValue_long, hl]
    | IntegerDatum v =>
      by_cases hv : cm.valid_delay v = true
      · cases hw : d.lookup Name.weight with
        | none =>
          simp [DelayRateConnection.set_status, ConnectionBase.set_status,
            updateValue_long, updateValue_double, getValue_long, hl, hv, hw] at herr
        | some t =>
          cases t with
          | DoubleDatum x =>
            simp [DelayRateConnection.set_status, ConnectionBase.set_status,
              updateValue_long, updateValue_double, getValue_long, getValue_double, hl,
              hv, hw] at herr
          | IntegerDatum x =>
            right
            refine ⟨v, Datum.IntegerDatum x, rfl, hv, rfl, (fun y hy => by cases hy), ?_, ?_⟩
            <;> simp [DelayRateConnection.set_status, ConnectionBase.set_status,
              updateValue_long, updateValue_double, getValue_long, getValue_double, hl,
              hv, hw]
          | StringDatum x =>
            right
            refine ⟨v, Datum.StringDatum x, rfl, hv, rfl, (fun y hy => by cases hy), ?_, ?_⟩
            <;> simp [DelayRateConnection.set_status, ConnectionBase.set_status,
              updateValue_long, updateValue_double, getValue_long, getValue_double, hl,
              hv, hw]
      · left
        simp [DelayRateConnection.set_status, ConnectionBase.set_status, updateValue_long,
          getValue_long, hl, hv]

/-- A failing `DiffusionConnection::set_status` leaves the connection unchanged, or else
the dictionary holds a `double` under `drift_factor`, which has been stored, and a
`diffusion_factor` entry that is not a `double`. -/
theorem DiffusionConnection.diffusion_failure_cases (c : DiffusionConnection)
    (d : Dictionary) (cm : ConnectorModel) (herr : (c.set_status d cm).error ≠ none) :
    (c.set_status d cm).state = c ∨
    ∃ a t, d.known Name.delay = false ∧ d.known Name.weight = false ∧
      d.lookup Name.drift_factor = some (Datum.DoubleDatum a) ∧
      d.lookup Name.diffusion_factor = some t ∧ (∀ x, t ≠ Datum.DoubleDatum x) ∧
      (c.set_status d cm).error = some KernelException.TypeMismatch ∧
      (c.set_status d cm).state = { c with drift_factor_ := a } := by
  unfold DiffusionConnection.set_status at herr ⊢
  by_cases hd : d.known Name.delay = true
  · left
    rw [if_pos hd]
  · by_cases hw : d.known Name.weight = true
    · left
      rw [if_neg hd, if_pos hw]
    · have hdf : d.known Name.delay = false := by
        cases hk : d.known Name.delay with
        | false => rfl
        | true => exact absurd hk hd
      have hwf : d.known Name.weight = false := by
        cases hk : d.known Name.weight with
        | false => rfl
        | true => exact absurd hk hw
      have hnd : d.lookup Name.delay = none := by
        cases hl : d.lookup Name.delay with
        | none => rfl
        | some t => simp [Dictionary.known, hl] at hd
      have hb := ConnectionBase.set_status_of_no_delay c.toConnectionBase d cm hnd
      rw [if_neg hd, if_neg hw, hb] at herr ⊢
      cases h1 : d.lookup Name.drift_factor with
      | none =>
        cases h2 : d.lookup Name.diffusion_factor with
        | none => simp [updateValue_double, h1, h2] at herr
        | some t =>
          cases t with
          | DoubleDatum x => simp [updateValue_double, getValue_double, h1, h2] at herr
          | IntegerDatum x =>
            left
            simp [updateValue_double, getValue_double, h1, h2]
          | StringDatum x =>
            left
            simp [updateValue_double, getValue_double, h1, h2]
      | some t1 =>
        cases t1 with
        | IntegerDatum x =>
          left
          simp [updateValue_double, getValue_double, h1]
        | StringDatum x =>
          left
          simp [updateValue_double, getValue_double, h1]
        | DoubleDatum a =>
          cases h2 : d.lookup Name.diffusion_factor with
          | none => simp [updateValue_double, getValue_double, h1, h2] at herr
          | some t =>
            cases t with
            | DoubleDatum x => simp [updateValue_double, getValue_double, h1, h2] at herr
            | IntegerDatum x =>
              right
              refine ⟨a, Datum.IntegerDatum x, hdf, hwf, rfl, rfl,
                (fun y hy => by cases hy), ?_, ?_⟩ <;>
                simp [updateValue_double, getValue_double, h1, h2]
            | StringDatum x =>
              right
              refine ⟨a, Datum.StringDatum x, hdf, hwf, rfl, rfl,
                (fun y hy => by cases hy), ?_, ?_⟩ <;>
                simp [updateValue_double, getValue_double, h1, h2]

/-- C8, amended: a failing `set_status` leaves every field of the connection unchanged,
except when the failure is a wrongly typed value met after an earlier entry has been
stored. For a Delayed Rate Connection that is the case exactly when the dictionary holds
an integer delay that the base accepts together with a `weight` entry that is not a
`double`: the call then fails with `TypeMismatch`, the delay is the one of the
dictionary and every other field is unchanged. For a Diffusive Connection it is the case
exactly when the dictionary holds neither `delay` nor `weight`, a `double` under
`drift_factor` and a `diffusion_factor` entry that is not a `double`: the call then fails
with `TypeMismatch`, the drift factor is the one of the dictionary and every other field
is unchanged. -/
theorem set_status_failure_frame (cr : DelayRateConnection) (cf : DiffusionConnection)
    (d : Dictionary) (cm : ConnectorModel) :
    ((cr.set_status d cm).error ≠ none →
      (cr.set_status d cm).state = cr ∨
      ∃ v t, d.lookup Name.delay = some (Datum.IntegerDatum v) ∧
        cm.valid_delay v = true ∧
        d.lookup Name.weight = some t ∧ (∀ x, t ≠ Datum.DoubleDatum x) ∧
        (cr.set_status d cm).error = some KernelException.TypeMismatch ∧
        (cr.set_status d cm).state = { cr with delay_steps := v }) ∧
    ((cf.set_status d cm).error ≠ none →
      (cf.set_status d cm).state = cf ∨
      ∃ a t, d.known Name.delay = false ∧ d.known Name.weight = false ∧
        d.lookup Name.drift_factor = some (Datum.DoubleDatum a) ∧
        d.lookup Name.diffusion_factor = some t ∧ (∀ x, t ≠ Datum.DoubleDatum x) ∧
        (cf.set_status d cm).error = some KernelException.TypeMismatch ∧
        (cf.set_status d cm).state = { cf with drift_factor_ := a }) ∧
    (∀ v t, d.lookup Name.delay = some (Datum.IntegerDatum v) → cm.valid_delay v = true →
      d.lookup Name.weight = some t → (∀ x, t ≠ Datum.DoubleDatum x) →
      (cr.set_status d cm).error = some KernelException.TypeMismatch ∧
      (cr.set_status d cm).state = { cr with delay_steps := v }) ∧
    (∀ a t, d.known Name.delay = false → d.known Name.weight = false →
      d.lookup Name.drift_factor = some (Datum.DoubleDatum a) →
      d.lookup Name.diffusion_factor = some t → (∀ x, t ≠ Datum.DoubleDatum x) →
      (cf.set_status d cm).error = some KernelException.TypeMismatch ∧
      (cf.set_status d cm).state = { cf with drift_factor_ := a }) := by
  refine ⟨DelayRateConnection.delay_rate_failure_cases cr d cm,
    DiffusionConnection.diffusion_failure_cases cf d cm, ?_, ?_⟩
  · intro v t hl hv hw ht
    cases t with
    | DoubleDatum x => exact absurd rfl (ht x)
    | IntegerDatum x =>
      constructor <;>
        simp [DelayRateConnection.set_status, ConnectionBase.set_status, updateValue_long,
          updateValue_double, getValue_long, getValue_double, hl, hv, hw]
    | StringDatum x =>
      constructor <;>
        simp [DelayRateConnection.set_status, ConnectionBase.set_status, updateValue_long,
          updateValue_double, getValue_long, getValue_double, hl, hv, hw]
  · intro a t hdf hwf h1 h2 ht
    have hd : ¬ (d.known Name.delay = true) := by rw [hdf]; exact Bool.false_ne_true
    have hw : ¬ (d.known Name.weight = true) := by rw [hwf]; exact Bool.false_ne_true
    have hnd : d.lookup Name.delay = none := by
      cases hl : d.lookup Name.delay with
      | none => rfl
      | some t => simp [Dictionary.known, hl] at hdf
    have hb := ConnectionBase.set_status_of_no_delay cf.toConnectionBase d cm hnd
    unfold DiffusionConnection.set_status
    rw [if_neg hd, if_neg hw, hb]
    cases t with
    | DoubleDatum x => exact absurd rfl (ht x)
    | IntegerDatum x =>
      constructor <;> simp [updateValue_double, getValue_double, h1, h2]
    | StringDatum x =>
      constructor <;> simp [updateValue_double, getValue_double, h1, h2]

/-- C8, amended, at four failing calls on default-constructed connections: a Delayed Rate
Connection offered a delay of zero steps, which the collaborator refuses, and a Diffusive
Connection offered a `weight` (nothing or the late type error, by the first two parts);
then the two late type errors themselves, where the delay 3, resp. the drift factor 2/5,
has been stored. -/
theorem set_status_failure_frame_witness :
    (((DelayRateConnection.new example_base).set_status (weight_delay_dict 2 0)
          example_cm).state = DelayRateConnection.new example_base ∨
      ∃ v t, (weight_delay_dict 2 0).lookup Name.delay = some (Datum.IntegerDatum v) ∧
        example_cm.valid_delay v = true ∧
        (weight_delay_dict 2 0).lookup Name.weight = some t ∧
        (∀ x, t ≠ Datum.DoubleDatum x) ∧
        ((DelayRateConnection.new example_base).set_status (weight_delay_dict 2 0)
          example_cm).error = some KernelException.TypeMismatch ∧
        ((DelayRateConnection.new example_base).set_status (weight_delay_dict 2 0)
          example_cm).state
          = { DelayRateConnection.new example_base with delay_steps := v }) ∧
    (((DiffusionConnection.new example_base).set_status (weight_delay_dict 2 0)
          example_cm).state = DiffusionConnection.new example_base ∨
      ∃ a t, (weight_delay_dict 2 0).known Name.delay = false ∧
        (weight_delay_dict 2 0).known Name.weight = false ∧
        (weight_delay_dict 2 0).lookup Name.drift_factor = some (Datum.DoubleDatum a) ∧
        (weight_delay_dict 2 0).lookup Name.diffusion_factor = some t ∧
        (∀ x, t ≠ Datum.DoubleDatum x) ∧
        ((DiffusionConnection.new example_base).set_status (weight_delay_dict 2 0)
          example_cm).error = some KernelException.TypeMismatch ∧
        ((DiffusionConnection.new example_base).set_status (weight_delay_dict 2 0)
          example_cm).state
          = { DiffusionConnection.new example_base with drift_factor_ := a }) ∧
    (((DelayRateConnection.new example_base).set_status example_mistyped_weight
          example_cm).error = some KernelException.TypeMismatch ∧
      ((DelayRateConnection.new example_base).set_status example_mistyped_weight
          example_cm).state
        = { DelayRateConnection.new example_base with delay_steps := 3 }) ∧
    (((DiffusionConnection.new example_base).set_status example_mistyped_diffusion
          example_cm).error = some KernelException.TypeMismatch ∧
      ((DiffusionConnection.new example_base).set_status example_mistyped_diffusion
          example_cm).state
        = { DiffusionConnection.new example_base with drift_factor_ := 2 / 5 }) :=
  ⟨(set_status_failure_frame (DelayRateConnection.new example_base)
      (DiffusionConnection.new example_base) (weight_delay_dict 2 0) example_cm).1
      (by decide),
   (set_status_failure_frame (DelayRateConnection.new example_base)
      (DiffusionConnection.new example_base) (weight_delay_dict 2 0) example_cm).2.1
      (by decide),
   (set_status_failure_frame (DelayRateConnection.new example_base)
      (DiffusionConnection.new example_base) example_mistyped_weight example_cm).2.2.1
      3 (Datum.IntegerDatum 2) rfl (by decide) rfl (fun _ h => nomatch h),
   (set_status_failure_frame (DelayRateConnection.new example_base)
      (DiffusionConnection.new example_base) example_mistyped_diffusion example_cm).2.2.2
      (2 / 5) (Datum.IntegerDatum 1) rfl rfl rfl rfl (fun _ h => nomatch h)⟩

/-- C9, as stated, fails: the dictionary written by `get_status` of a default-constructed
Diffusive Connection is rejected by `set_status` with `BadProperty` because it holds a
`delay` entry, and still rejected, because of its `weight` entry, once the `delay` entry
is removed. -/
theorem DiffusionConnection.own_status_rejected_counterexample :
    ((DiffusionConnection.new example_base).set_status
        ((DiffusionConnection.new example_base).get_status 48 Dictionary.empty)
        example_cm).error
      = some (KernelException.BadProperty DiffusionConnection.msg_delay) ∧
    ((DiffusionConnection.new example_base).set_status
        (((DiffusionConnection.new example_base).get_status 48 Dictionary.empty).erase
          Name.delay) example_cm).error
      = some (KernelException.BadProperty DiffusionConnection.msg_weight) :=
  ⟨rfl, rfl⟩

/-- C9, amended: for every Diffusive Connection `c`, the dictionary written by
`get_status` into an empty sink names every mutable field (`drift_factor`,
`diffusion_factor`) with its current value, and also holds `weight` and `delay`; passed
unmodified to `set_status` it is rejected with `BadProperty` and `c` is unchanged; passed
with the `weight` and `delay` entries removed, `set_status` succeeds and reproduces
`c`. -/
theorem DiffusionConnection.status_roundtrip_without_weight_delay (c : DiffusionConnection)
    (sizeof_this : long) (cm : ConnectorModel) :
    (c.get_status sizeof_this Dictionary.empty).lookup Name.drift_factor
        = some (Datum.DoubleDatum c.drift_factor_) ∧
    (c.get_status sizeof_this Dictionary.empty).lookup Name.diffusion_factor
        = some (Datum.DoubleDatum c.diffusion_factor_) ∧
    (c.get_status sizeof_this Dictionary.empty).known Name.weight = true ∧
    (c.get_status sizeof_this Dictionary.empty).known Name.delay = true ∧
    (∃ msg, (c.set_status (c.get_status sizeof_this Dictionary.empty) cm).error
        = some (KernelException.BadProperty msg)) ∧
    (c.set_status (c.get_status sizeof_this Dictionary.empty) cm).state = c ∧
    (c.set_status
        (((c.get_status sizeof_this Dictionary.empty).erase Name.weight).erase Name.delay)
        cm).error = none ∧
    (c.set_status
        (((c.get_status sizeof_this Dictionary.empty).erase Name.weight).erase Name.delay)
        cm).state = c := by
  refine ⟨rfl, rfl, rfl, rfl, ⟨_, rfl⟩, rfl, ?_, ?_⟩ <;>
    simp [DiffusionConnection.set_status, DiffusionConnection.get_status,
      ConnectionBase.set_status, ConnectionBase.get_status, updateValue_long,
      updateValue_double, getValue_double]

/-- One call on a `DiffusionConnection` never changes the stored weight. -/
theorem DiffusionConnection.call_weight (c c1 : DiffusionConnection) (op : DiffusionCall)
    (h : c.call op = some c1) : c1.weight_ = c.weight_ := by
  cases op with
  | check_connection s t receptor_type =>
    simp only [DiffusionConnection.call, Option.some.injEq] at h
    subst h
    unfold DiffusionConnection.check_connection
    cases s.sends_secondary_event EventKind.DiffusionEvent with
    | error err => rfl
    | ok u =>
      cases t.handles_test_event EventKind.DiffusionEvent s.addr receptor_type with
      | error err => rfl
      | ok p => rfl
  | set_status d cm =>
    simp only [DiffusionConnection.call, Option.some.injEq] at h
    subst h
    unfold DiffusionConnection.set_status
    split
    · rfl
    · split
      · rfl
      · split
        · rfl
        · split
          · rfl
          · split <;> rfl
  | set_weight w =>
    simp only [DiffusionConnection.call, Option.some.injEq] at h
    subst h
    rfl
  | set_delay v =>
    simp only [DiffusionConnection.call, Option.some.injEq] at h
    subst h
    rfl
  | get_status sz d =>
    simp only [DiffusionConnection.call, Option.some.injEq] at h
    subst h
    rfl
  | send e t =>
    simp only [DiffusionConnection.call, DiffusionConnection.send] at h
    cases hg : c.get_target t with
    | none => simp [hg] at h
    | some r =>
      simp [hg] at h
      subst h
      rfl

/-- A finite sequence of calls on a `DiffusionConnection` never changes the stored
weight. -/
theorem DiffusionConnection.calls_weight (ops : List DiffusionCall) :
    ∀ c c1 : DiffusionConnection, c.calls ops = some c1 → c1.weight_ = c.weight_ := by
  induction ops with
  | nil =>
    intro c c1 h
    simp only [DiffusionConnection.calls, Option.some.injEq] at h
    subst h
    rfl
  | cons op ops ih =>
    intro c c1 h
    unfold DiffusionConnection.calls at h
    cases hc : c.call op with
    | none => simp [hc] at h
    | some c2 =>
      rw [hc] at h
      exact (ih c2 c1 h).trans (DiffusionConnection.call_weight c c2 op hc)

/-- C10: the weight of a Diffusive Connection is write-protected. In every state `c`
reached from a default-constructed Diffusive Connection by a finite sequence of
`check_connection`, `set_status`, `set_weight`, `set_delay`, `get_status` and `send`
calls, returning or throwing, with arbitrary arguments, the stored weight is 1.0 and
`get_status` reports `weight` = 1.0. -/
theorem DiffusionConnection.weight_write_protected (b : ConnectionBase)
    (ops : List DiffusionCall) (c : DiffusionConnection) (sizeof_this : long)
    (d : Dictionary) (h : (DiffusionConnection.new b).calls ops = some c) :
    c.weight_ = 1.0 ∧
      (c.get_status sizeof_this d).lookup Name.weight = some (Datum.DoubleDatum 1.0) := by
  have hw : c.weight_ = 1.0 := DiffusionConnection.calls_weight ops _ c h
  refine ⟨hw, ?_⟩
  simp [DiffusionConnection.get_status, hw]

/-- C10 at `example_calls`, which lead to the connection bound to node 7 on port 4 with
drift factor 2 and diffusion factor 3. -/
theorem DiffusionConnection.weight_write_protected_witness :
    (DiffusionConnection.new example_base).calls example_calls
        = some (DiffusionConnection.mk ⟨⟨some 7, 4⟩, 1⟩ 1.0 2 3) ∧
      ((DiffusionConnection.mk ⟨⟨some 7, 4⟩, 1⟩ 1.0 2 3).weight_ = 1.0 ∧
        ((DiffusionConnection.mk ⟨⟨some 7, 4⟩, 1⟩ 1.0 2 3).get_status 48
            Dictionary.empty).lookup Name.weight = some (Datum.DoubleDatum 1.0)) :=
  ⟨rfl, DiffusionConnection.weight_write_protected example_base example_calls
      (DiffusionConnection.mk ⟨⟨some 7, 4⟩, 1⟩ 1.0 2 3) 48 Dictionary.empty rfl⟩

/-- C11: for both variants, if the source accepts the probe of the variant's kind and the
target resolves the requested receptor to port `p`, then `check_connection` succeeds,
afterwards `get_rport()` is `p` and `get_target` resolves to the target `t`, and `weight`,
`drift_factor`, `diffusion_factor` and the delay are unchanged. Each variant needs the
nodes to support its own kind of event only. -/
theorem check_connection_binds (cr : DelayRateConnection) (cf : DiffusionConnection)
    (s t : Node) (receptor_type p : rport) :
    (s.sends_secondary_event EventKind.DelayRateNeuronEvent = Except.ok () →
      t.handles_test_event EventKind.DelayRateNeuronEvent s.addr receptor_type
        = Except.ok p →
      (cr.check_connection s t receptor_type).error = none ∧
      (cr.check_connection s t receptor_type).state.get_rport = p ∧
      (∀ th, (cr.check_connection s t receptor_type).state.get_target th
        = some t.addr) ∧
      (cr.check_connection s t receptor_type).state.weight_ = cr.weight_ ∧
      (cr.check_connection s t receptor_type).state.get_delay_steps
        = cr.get_delay_steps) ∧
    (s.sends_secondary_event EventKind.DiffusionEvent = Except.ok () →
      t.handles_test_event EventKind.DiffusionEvent s.addr receptor_type
        = Except.ok p →
      (cf.check_connection s t receptor_type).error = none ∧
      (cf.check_connection s t receptor_type).state.get_rport = p ∧
      (∀ th, (cf.check_connection s t receptor_type).state.get_target th
        = some t.addr) ∧
      (cf.check_connection s t receptor_type).state.weight_ = cf.weight_ ∧
      (cf.check_connection s t receptor_type).state.drift_factor_ = cf.drift_factor_ ∧
      (cf.check_connection s t receptor_type).state.diffusion_factor_
        = cf.diffusion_factor_ ∧
      (cf.check_connection s t receptor_type).state.get_delay_steps
        = cf.get_delay_steps) := by
  constructor
  · intro hs ht
    simp [DelayRateConnection.check_connection, hs, ht, ConnectionBase.get_rport,
      ConnectionBase.get_target, ConnectionBase.get_delay_steps,
      TargetIdentifier.set_rport, TargetIdentifier.set_target]
  · intro hs ht
    simp [DiffusionConnection.check_connection, hs, ht, ConnectionBase.get_rport,
      ConnectionBase.get_target, ConnectionBase.get_delay_steps,
      TargetIdentifier.set_rport, TargetIdentifier.set_target]

/-- C11 at default-constructed connections and receptor 3, resolved to port 4: the Delayed
Rate Connection between nodes that know delayed rate events only, the Diffusive
Connection between nodes that know diffusion events only. -/
theorem check_connection_binds_witness :
    (((DelayRateConnection.new example_base).check_connection example_rate_node
          example_rate_node 3).error = none ∧
      ((DelayRateConnection.new example_base).check_connection example_rate_node
          example_rate_node 3).state.get_rport = 4 ∧
      (∀ th, ((DelayRateConnection.new example_base).check_connection example_rate_node
          example_rate_node 3).state.get_target th = some example_rate_node.addr) ∧
      ((DelayRateConnection.new example_base).check_connection example_rate_node
          example_rate_node 3).state.weight_ = (DelayRateConnection.new example_base).weight_ ∧
      ((DelayRateConnection.new example_base).check_connection example_rate_node
          example_rate_node 3).state.get_delay_steps
        = (DelayRateConnection.new example_base).get_delay_steps) ∧
    (((DiffusionConnection.new example_base).check_connection example_diffusion_node
          example_diffusion_node 3).error = none ∧
      ((DiffusionConnection.new example_base).check_connection example_diffusion_node
          example_diffusion_node 3).state.get_rport = 4 ∧
      (∀ th, ((DiffusionConnection.new example_base).check_connection
          example_diffusion_node example_diffusion_node 3).state.get_target th
        = some example_diffusion_node.addr) ∧
      ((DiffusionConnection.new example_base).check_connection example_diffusion_node
          example_diffusion_node 3).state.weight_
        = (DiffusionConnection.new example_base).weight_ ∧
      ((DiffusionConnection.new example_base).check_connection example_diffusion_node
          example_diffusion_node 3).state.drift_factor_
        = (DiffusionConnection.new example_base).drift_factor_ ∧
      ((DiffusionConnection.new example_base).check_connection example_diffusion_node
          example_diffusion_node 3).state.diffusion_factor_
        = (DiffusionConnection.new example_base).diffusion_factor_ ∧
      ((DiffusionConnection.new example_base).check_connection example_diffusion_node
          example_diffusion_node 3).state.get_delay_steps
        = (DiffusionConnection.new example_base).get_delay_steps) :=
  ⟨(check_connection_binds (DelayRateConnection.new example_base)
      (DiffusionConnection.new example_base) example_rate_node example_rate_node 3 4).1
      rfl rfl,
   (check_connection_binds (DelayRateConnection.new example_base)
      (DiffusionConnection.new example_base) example_diffusion_node
      example_diffusion_node 3 4).2 rfl rfl⟩

/-- C12: what `set_status` writes, `get_status` reads back. For every Delayed Rate
Connection and every `w`, `set_status` with `{ weight: w }` succeeds and the dictionary
produced by `get_status` afterwards has `weight` = `w`; for every Diffusive Connection
and every `a`, `b`, `set_status` with `{ drift_factor: a, diffusion_factor: b }` succeeds
and the dictionary produced by `get_status` afterwards has `drift_factor` = `a` and
`diffusion_factor` = `b`. Both dictionaries hold a `size_of` entry. -/
theorem set_status_read_back (cr : DelayRateConnection) (cf : DiffusionConnection)
    (w a b : double) (cm : ConnectorModel) (sizeof_this : long) (d : Dictionary) :
    ((cr.set_status (weight_dict w) cm).error = none ∧
      ((cr.set_status (weight_dict w) cm).state.get_status sizeof_this d).lookup
          Name.weight = some (Datum.DoubleDatum w) ∧
      ((cr.set_status (weight_dict w) cm).state.get_status sizeof_this d).lookup
          Name.size_of = some (Datum.IntegerDatum sizeof_this)) ∧
    ((cf.set_status (drift_diffusion_dict a b) cm).error = none ∧
      ((cf.set_status (drift_diffusion_dict a b) cm).state.get_status sizeof_this d).lookup
          Name.drift_factor = some (Datum.DoubleDatum a) ∧
      ((cf.set_status (drift_diffusion_dict a b) cm).state.get_status sizeof_this d).lookup
          Name.diffusion_factor = some (Datum.DoubleDatum b) ∧
      ((cf.set_status (drift_diffusion_dict a b) cm).state.get_status sizeof_this d).lookup
          Name.size_of = some (Datum.IntegerDatum sizeof_this)) := by
  constructor
  · simp [DelayRateConnection.set_status, DelayRateConnection.get_status, weight_dict,
      ConnectionBase.set_status, ConnectionBase.get_status, updateValue_long,
      updateValue_double, getValue_double]
  · simp [DiffusionConnection.set_status, DiffusionConnection.get_status,
      drift_diffusion_dict, ConnectionBase.set_status, ConnectionBase.get_status,
      updateValue_long, updateValue_double, getValue_double]

/-- C13: a default-constructed Delayed Rate Connection has weight 1.0 and a
default-constructed Diffusive Connection has weight, drift factor and diffusion factor
1.0; `get_status` on the fresh objects reports these values under `weight`,
`drift_factor` and `diffusion_factor`. -/
theorem default_parameter_values (b : ConnectionBase) (sizeof_this : long)
    (d : Dictionary) :
    (DelayRateConnection.new b).weight_ = 1.0 ∧
    (DiffusionConnection.new b).weight_ = 1.0 ∧
    (DiffusionConnection.new b).drift_factor_ = 1.0 ∧
    (DiffusionConnection.new b).diffusion_factor_ = 1.0 ∧
    ((DelayRateConnection.new b).get_status sizeof_this d).lookup Name.weight
      = some (Datum.DoubleDatum 1.0) ∧
    ((DiffusionConnection.new b).get_status sizeof_this d).lookup Name.weight
      = some (Datum.DoubleDatum 1.0) ∧
    ((DiffusionConnection.new b).get_status sizeof_this d).lookup Name.drift_factor
      = some (Datum.DoubleDatum 1.0) ∧
    ((DiffusionConnection.new b).get_status sizeof_this d).lookup Name.diffusion_factor
      = some (Datum.DoubleDatum 1.0) :=
  ⟨rfl, rfl, rfl, rfl, rfl, rfl, rfl, rfl⟩

/-- `DelayRateConnection::set_status` never touches the target identifier, whether it
returns or throws. -/
theorem DelayRateConnection.delay_rate_set_status_target (c : DelayRateConnection)
    (d : Dictionary) (cm : ConnectorModel) :
    (c.set_status d cm).state.target_ = c.target_ := by
  have htgt := ConnectionBase.set_status_target c.toConnectionBase d cm
  unfold DelayRateConnection.set_status
  rcases hb : c.toConnectionBase.set_status d cm with ⟨b, eb⟩
  rw [hb] at htgt
  simp only at htgt
  cases eb with
  | some err => simpa using htgt
  | none =>
    cases hu : updateValue_double d Name.weight c.weight_ with
    | error err => simpa using htgt
    | ok r => simpa using htgt

/-- `DiffusionConnection::set_status` never touches the target identifier, whether it
returns or throws. -/
theorem DiffusionConnection.diffusion_set_status_target (c : DiffusionConnection)
    (d : Dictionary) (cm : ConnectorModel) :
    (c.set_status d cm).state.target_ = c.target_ := by
  have htgt := ConnectionBase.set_status_target c.toConnectionBase d cm
  unfold DiffusionConnection.set_status
  by_cases hd : d.known Name.delay = true
  · rw [if_pos hd]
  · by_cases hw : d.known Name.weight = true
    · rw [if_neg hd, if_pos hw]
    · rw [if_neg hd, if_neg hw]
      rcases hb : c.toConnectionBase.set_status d cm with ⟨b, eb⟩
      rw [hb] at htgt
      simp only at htgt
      cases eb with
      | some err => simpa using htgt
      | none =>
        cases hu : updateValue_double d Name.drift_factor c.drift_factor_ with
        | error err => simpa using htgt
        | ok r =>
          cases hv : updateValue_double d Name.diffusion_factor c.diffusion_factor_ with
          | error err => simpa using htgt
          | ok r2 => simpa using htgt

/-- A call on a `DelayRateConnection` other than the handshake leaves the target
identifier as it was. -/
theorem DelayRateConnection.delay_rate_call_target (c c1 : DelayRateConnection)
    (op : DelayRateCall) (hop : op.is_check_connection = false)
    (h : c.call op = some c1) : c1.target_ = c.target_ := by
  cases op with
  | check_connection s t receptor_type => simp [DelayRateCall.is_check_connection] at hop
  | set_status d cm =>
    simp only [DelayRateConnection.call, Option.some.injEq] at h
    subst h
    exact DelayRateConnection.delay_rate_set_status_target c d cm
  | set_weight w =>
    simp only [DelayRateConnection.call, Option.some.injEq] at h
    subst h
    rfl
  | set_delay v =>
    simp only [DelayRateConnection.call, Option.some.injEq] at h
    subst h
    rfl
  | get_status sz d =>
    simp only [DelayRateConnection.call, Option.some.injEq] at h
    subst h
    rfl
  | send e t =>
    simp only [DelayRateConnection.call, DelayRateConnection.send] at h
    cases hg : c.get_target t with
    | none => simp [hg] at h
    | some r =>
      simp [hg] at h
      subst h
      rfl

/-- A call on a `DiffusionConnection` other than the handshake leaves the target
identifier as it was. -/
theorem DiffusionConnection.diffusion_call_target (c c1 : DiffusionConnection)
    (op : DiffusionCall) (hop : op.is_check_connection = false)
    (h : c.call op = some c1) : c1.target_ = c.target_ := by
  cases op with
  | check_connection s t receptor_type => simp [DiffusionCall.is_check_connection] at hop
  | set_status d cm =>
    simp only [DiffusionConnection.call, Option.some.injEq] at h
    subst h
    exact DiffusionConnection.diffusion_set_status_target c d cm
  | set_weight w =>
    simp only [DiffusionConnection.call, Option.some.injEq] at h
    subst h
    rfl
  | set_delay v =>
    simp only [DiffusionConnection.call, Option.some.injEq] at h
    subst h
    rfl
  | get_status sz d =>
    simp only [DiffusionConnection.call, Option.some.injEq] at h
    subst h
    rfl
  | send e t =>
    simp only [DiffusionConnection.call, DiffusionConnection.send] at h
    cases hg : c.get_target t with
    | none => simp [hg] at h
    | some r =>
      simp [hg] at h
      subst h
      rfl

/-- C14: the receptor port and the target are changed by nothing but the handshake. For
both variants and for every connection, bound to a target or not, `set_status` (with any
dictionary, returning or throwing), `set_weight`, `set_delay` and `get_status` leave
`get_rport()` and the bound target as they were, and so does every call other than the
handshake; `send`, defined on a connection with a bound target, returns with the
connection unchanged in every field. -/
theorem port_and_target_frame (cr : DelayRateConnection) (cf : DiffusionConnection)
    (d : Dictionary) (cm : ConnectorModel) (w v : double) (dl : delay)
    (sizeof_this : long) (e : Event) (th : thread) :
    ((cr.set_status d cm).state.get_rport = cr.get_rport ∧
      (∀ t, (cr.set_status d cm).state.get_target t = cr.get_target t) ∧
      (cr.set_weight w).get_rport = cr.get_rport ∧
      (∀ t, (cr.set_weight w).get_target t = cr.get_target t) ∧
      (cr.toConnectionBase.set_delay dl).get_rport = cr.get_rport ∧
      (∀ t, (cr.toConnectionBase.set_delay dl).get_target t = cr.get_target t) ∧
      cr.call (DelayRateCall.get_status sizeof_this d) = some cr ∧
      (∀ n, cr.get_target th = some n → ∃ evs, cr.send e th = some (cr, evs))) ∧
    ((cf.set_status d cm).state.get_rport = cf.get_rport ∧
      (∀ t, (cf.set_status d cm).state.get_target t = cf.get_target t) ∧
      (cf.set_weight w).state.get_rport = cf.get_rport ∧
      (∀ t, (cf.set_weight w).state.get_target t = cf.get_target t) ∧
      (cf.set_delay v).state.get_rport = cf.get_rport ∧
      (∀ t, (cf.set_delay v).state.get_target t = cf.get_target t) ∧
      cf.call (DiffusionCall.get_status sizeof_this d) = some cf ∧
      (∀ n, cf.get_target th = some n → ∃ evs, cf.send e th = some (cf, evs))) ∧
    (∀ (opr : DelayRateCall) (cr1 : DelayRateConnection),
      opr.is_check_connection = false → cr.call opr = some cr1 →
      cr1.get_rport = cr.get_rport ∧ ∀ t, cr1.get_target t = cr.get_target t) ∧
    (∀ (opf : DiffusionCall) (cf1 : DiffusionConnection),
      opf.is_check_connection = false → cf.call opf = some cf1 →
      cf1.get_rport = cf.get_rport ∧ ∀ t, cf1.get_target t = cf.get_target t) := by
  have h1 := DelayRateConnection.delay_rate_set_status_target cr d cm
  have h2 := DiffusionConnection.diffusion_set_status_target cf d cm
  refine ⟨⟨?_, ?_, rfl, fun _ => rfl, rfl, fun _ => rfl, rfl, ?_⟩,
    ⟨?_, ?_, rfl, fun _ => rfl, rfl, fun _ => rfl, rfl, ?_⟩, ?_, ?_⟩
  · simp [ConnectionBase.get_rport, h1]
  · intro t
    simp [ConnectionBase.get_target, h1]
  · intro n hn
    simp [DelayRateConnection.send, hn]
  · simp [ConnectionBase.get_rport, h2]
  · intro t
    simp [ConnectionBase.get_target, h2]
  · intro n hn
    simp [DiffusionConnection.send, hn]
  · intro opr cr1 hop hcall
    have h3 := DelayRateConnection.delay_rate_call_target cr cr1 opr hop hcall
    exact ⟨by simp [ConnectionBase.get_rport, h3],
      fun t => by simp [ConnectionBase.get_target, h3]⟩
  · intro opf cf1 hop hcall
    have h3 := DiffusionConnection.diffusion_call_target cf cf1 opf hop hcall
    exact ⟨by simp [ConnectionBase.get_rport, h3],
      fun t => by simp [ConnectionBase.get_target, h3]⟩

/-- C14 before the handshake, where a `set_status` that stores weight 5 and a delay of two
steps (resp. the factors 6 and 7) in a default-constructed connection leaves port 0 and no
target; and after it, where `send` on connections bound to node 7 on port 4 returns with
the connection unchanged. -/
theorem port_and_target_frame_witness :
    ((DelayRateConnection.mk ⟨⟨none, 0⟩, 2⟩ 5).get_rport
        = (DelayRateConnection.new example_base).get_rport ∧
      ∀ t, (DelayRateConnection.mk ⟨⟨none, 0⟩, 2⟩ 5).get_target t
        = (DelayRateConnection.new example_base).get_target t) ∧
    ((DiffusionConnection.mk ⟨⟨none, 0⟩, 1⟩ 1.0 6 7).get_rport
        = (DiffusionConnection.new example_base).get_rport ∧
      ∀ t, (DiffusionConnection.mk ⟨⟨none, 0⟩, 1⟩ 1.0 6 7).get_target t
        = (DiffusionConnection.new example_base).get_target t) ∧
    (∃ evs, (DelayRateConnection.mk ⟨⟨some 7, 4⟩, 3⟩ 2).send example_event 0
        = some (DelayRateConnection.mk ⟨⟨some 7, 4⟩, 3⟩ 2, evs)) ∧
    (∃ evs, (DiffusionConnection.mk ⟨⟨some 7, 4⟩, 1⟩ 1 2 3).send example_event 0
        = some (DiffusionConnection.mk ⟨⟨some 7, 4⟩, 1⟩ 1 2 3, evs)) :=
  ⟨(port_and_target_frame (DelayRateConnection.new example_base)
      (DiffusionConnection.new example_base) Dictionary.empty example_cm 0 0 0 0
      example_event 0).2.2.1
      (DelayRateCall.set_status (weight_delay_dict 5 2) example_cm)
      (DelayRateConnection.mk ⟨⟨none, 0⟩, 2⟩ 5) rfl rfl,
   (port_and_target_frame (DelayRateConnection.new example_base)
      (DiffusionConnection.new example_base) Dictionary.empty example_cm 0 0 0 0
      example_event 0).2.2.2
      (DiffusionCall.set_status (drift_diffusion_dict 6 7) example_cm)
      (DiffusionConnection.mk ⟨⟨none, 0⟩, 1⟩ 1.0 6 7) rfl rfl,
   (port_and_target_frame (DelayRateConnection.mk ⟨⟨some 7, 4⟩, 3⟩ 2)
      (DiffusionConnection.mk ⟨⟨some 7, 4⟩, 1⟩ 1 2 3) Dictionary.empty example_cm 0 0 0 0
      example_event 0).1.2.2.2.2.2.2.2 7 rfl,
   (port_and_target_frame (DelayRateConnection.mk ⟨⟨some 7, 4⟩, 3⟩ 2)
      (DiffusionConnection.mk ⟨⟨some 7, 4⟩, 1⟩ 1 2 3) Dictionary.empty example_cm 0 0 0 0
      example_event 0).2.1.2.2.2.2.2.2.2 7 rfl⟩

/-- C15: the weight of a Delayed Rate Connection accepts any value. For every connection
`c` and every `w`, `set_weight( w )` returns with weight `w` and with delay, port and
target unchanged; `set_status` with the dictionary `{ weight: w }` succeeds with the same
result. -/
theorem DelayRateConnection.set_weight_accepts_any (c : DelayRateConnection) (w : double)
    (cm : ConnectorModel) :
    (c.set_weight w).weight_ = w ∧
    (c.set_weight w).get_delay_steps = c.get_delay_steps ∧
    (c.set_weight w).get_rport = c.get_rport ∧
    (∀ t, (c.set_weight w).get_target t = c.get_target t) ∧
    (c.set_status (weight_dict w) cm).error = none ∧
    (c.set_status (weight_dict w) cm).state = c.set_weight w := by
  refine ⟨rfl, rfl, rfl, fun _ => rfl, ?_, ?_⟩ <;>
    simp [DelayRateConnection.set_status, DelayRateConnection.set_weight, weight_dict,
      ConnectionBase.set_status, updateValue_long, updateValue_double, getValue_double]

/-- C16, as stated, fails: a dictionary that holds neither `weight` nor `delay` but an
integer under `drift_factor` makes `set_status` of a Diffusive Connection fail with
`TypeMismatch`. -/
theorem DiffusionConnection.set_status_mistyped_drift_counterexample :
    example_mistyped_drift.known Name.weight = false ∧
    example_mistyped_drift.known Name.delay = false ∧
    ((DiffusionConnection.new example_base).set_status example_mistyped_drift
        example_cm).error = some KernelException.TypeMismatch :=
  ⟨rfl, rfl, rfl⟩

/-- C16, amended: for every Diffusive Connection `c` and every dictionary `d` that holds
neither a `weight` nor a `delay` key and whose `drift_factor` and `diffusion_factor`
entries, where present, are of type `double`, `set_status` succeeds and updates each
factor independently: the drift factor becomes the value under `drift_factor` if that key
is present and is unchanged otherwise, and likewise the diffusion factor; weight, delay,
port and target are unchanged. In particular the empty dictionary changes nothing. -/
theorem DiffusionConnection.set_status_updates_factors (c : DiffusionConnection)
    (d : Dictionary) (cm : ConnectorModel)
    (hw : d.known Name.weight = false) (hd : d.known Name.delay = false)
    (h1 : ∀ t, d.lookup Name.drift_factor = some t → ∃ v, t = Datum.DoubleDatum v)
    (h2 : ∀ t, d.lookup Name.diffusion_factor = some t → ∃ v, t = Datum.DoubleDatum v) :
    (c.set_status d cm).error = none ∧
    (∀ a, d.lookup Name.drift_factor = some (Datum.DoubleDatum a) →
      (c.set_status d cm).state.drift_factor_ = a) ∧
    (d.lookup Name.drift_factor = none →
      (c.set_status d cm).state.drift_factor_ = c.drift_factor_) ∧
    (∀ b, d.lookup Name.diffusion_factor = some (Datum.DoubleDatum b) →
      (c.set_status d cm).state.diffusion_factor_ = b) ∧
    (d.lookup Name.diffusion_factor = none →
      (c.set_status d cm).state.diffusion_factor_ = c.diffusion_factor_) ∧
    (c.set_status d cm).state.weight_ = c.weight_ ∧
    (c.set_status d cm).state.toConnectionBase = c.toConnectionBase ∧
    (c.set_status Dictionary.empty cm).error = none ∧
    (c.set_status Dictionary.empty cm).state = c := by
  have hnd : d.lookup Name.delay = none := by
    cases hl : d.lookup Name.delay with
    | none => rfl
    | some t => simp [Dictionary.known, hl] at hd
  have hb := ConnectionBase.set_status_of_no_delay c.toConnectionBase d cm hnd
  have hd1 : ¬ (d.known Name.delay = true) := by rw [hd]; exact Bool.false_ne_true
  have hw1 : ¬ (d.known Name.weight = true) := by rw [hw]; exact Bool.false_ne_true
  have hempty : c.set_status Dictionary.empty cm = ⟨c, none⟩ := by
    simp [DiffusionConnection.set_status, ConnectionBase.set_status, updateValue_long,
      updateValue_double]
  unfold DiffusionConnection.set_status
  rw [if_neg hd1, if_neg hw1, hb, ← DiffusionConnection.set_status, hempty]
  cases hl1 : d.lookup Name.drift_factor with
  | none =>
    cases hl2 : d.lookup Name.diffusion_factor with
    | none => simp [updateValue_double, hl1, hl2]
    | some t2 =>
      obtain ⟨v2, rfl⟩ := h2 t2 hl2
      simp [updateValue_double, getValue_double, hl1, hl2]
  | some t1 =>
    obtain ⟨v1, rfl⟩ := h1 t1 hl1
    cases hl2 : d.lookup Name.diffusion_factor with
    | none => simp [updateValue_double, getValue_double, hl1, hl2]
    | some t2 =>
      obtain ⟨v2, rfl⟩ := h2 t2 hl2
      simp [updateValue_double, getValue_double, hl1, hl2]

/-- C16, amended, at a default-constructed connection and the dictionary
`{ drift_factor: 2 }`: the drift factor becomes 2 and the diffusion factor stays. -/
theorem DiffusionConnection.set_status_updates_factors_witness :
    ((DiffusionConnection.new example_base).set_status
        (def_double Dictionary.empty Name.drift_factor 2) example_cm).error = none ∧
    ((DiffusionConnection.new example_base).set_status
        (def_double Dictionary.empty Name.drift_factor 2) example_cm).state.drift_factor_
      = 2 ∧
    ((DiffusionConnection.new example_base).set_status
        (def_double Dictionary.empty Name.drift_factor 2)
        example_cm).state.diffusion_factor_
      = (DiffusionConnection.new example_base).diffusion_factor_ :=
  ⟨(DiffusionConnection.set_status_updates_factors (DiffusionConnection.new example_base)
      (def_double Dictionary.empty Name.drift_factor 2) example_cm rfl rfl
      (fun _ ht => ⟨2, (Option.some.inj ht).symm⟩) (fun _ ht => nomatch ht)).1,
   (DiffusionConnection.set_status_updates_factors (DiffusionConnection.new example_base)
      (def_double Dictionary.empty Name.drift_factor 2) example_cm rfl rfl
      (fun _ ht => ⟨2, (Option.some.inj ht).symm⟩) (fun _ ht => nomatch ht)).2.1 2 rfl,
   (DiffusionConnection.set_status_updates_factors (DiffusionConnection.new example_base)
      (def_double Dictionary.empty Name.drift_factor 2) example_cm rfl rfl
      (fun _ ht => ⟨2, (Option.some.inj ht).symm⟩)
      (fun _ ht => nomatch ht)).2.2.2.2.1 rfl⟩

/-- C17: `send` of a Diffusive Connection sets the weight of the outgoing signal to the
stored weight before forwarding it. In every state `c` reached from default construction
and bound to a target, for every outgoing signal `e`, exactly one signal is forwarded
and its weight is the stored weight, 1.0, whatever weight `e` had and whatever the drift
and diffusion factors are. -/
theorem DiffusionConnection.send_weight_is_one (b : ConnectionBase)
    (ops : List DiffusionCall) (c : DiffusionConnection) (e : Event) (th : thread)
    (r : Nat) (h : (DiffusionConnection.new b).calls ops = some c)
    (hr : c.get_target th = some r) :
    ∃ e1, c.send e th = some (c, [e1]) ∧ e1.weight = c.weight_ ∧ e1.weight = 1.0 := by
  have hw : c.weight_ = 1.0 := DiffusionConnection.calls_weight ops _ c h
  simp [DiffusionConnection.send, hr, Event.set_weight, Event.set_drift_factor,
    Event.set_diffusion_factor, Event.set_receiver, Event.set_rport, hw]

/-- C17 at the state reached by `example_calls` and a signal that comes in with
weight 5. -/
theorem DiffusionConnection.send_weight_is_one_witness :
    ∃ e1, (DiffusionConnection.mk ⟨⟨some 7, 4⟩, 1⟩ 1.0 2 3).send example_event 0
        = some (DiffusionConnection.mk ⟨⟨some 7, 4⟩, 1⟩ 1.0 2 3, [e1]) ∧
      e1.weight = (DiffusionConnection.mk ⟨⟨some 7, 4⟩, 1⟩ 1.0 2 3).weight_ ∧
      e1.weight = 1.0 :=
  DiffusionConnection.send_weight_is_one example_base example_calls
    (DiffusionConnection.mk ⟨⟨some 7, 4⟩, 1⟩ 1.0 2 3) example_event 0 7 rfl rfl

end nest
